import Mathlib

/-!
Verification of the "fato-ou-fake-dataset-br" extraction pipeline against its
design specification.  The Python sources (fato-ou-fake-scraper.py,
fato-ou-fake-api.py, fato-ou-fake-combinado.py) are shallowly embedded below:
strings are `List Char` under the hood, network effects are passed in as
explicit inputs (a fetched page, a parsed payload), and pandas DataFrames are
modelled as a column list plus rows of association lists.

Character case mapping models Python str.lower / str.upper on the Basic Latin
and Latin-1 ranges (the only ranges the patterns and keywords of the program
use); code points above U+00FF are returned unchanged by the lowering map.
-/

/-- Python str.lower on one char, faithful on Basic Latin and Latin-1:
A..Z and the accented uppercase range U+00C0..U+00DE (except the
multiplication sign U+00D7) move down by 32; everything else is unchanged. -/
def lowerChar (c : Char) : Char :=
  let n := c.toNat
  if (65 ≤ n ∧ n ≤ 90) ∨ (192 ≤ n ∧ n ≤ 222 ∧ n ≠ 215) then Char.ofNat (n + 32) else c

/-- Python str.lower over a list of chars. -/
def lowerList (s : List Char) : List Char := s.map lowerChar

/-- Python str.lower as a String operation. -/
def stringLower (s : String) : String := String.mk (lowerList s.data)

/-- Python str.upper on one char (Latin-1 faithful): a..z and the accented
lowercase range move up by 32; ß expands to SS, µ maps to Greek capital Mu,
ÿ maps to U+0178. -/
def upperChar (c : Char) : List Char :=
  let n := c.toNat
  if 97 ≤ n ∧ n ≤ 122 then [Char.ofNat (n - 32)]
  else if n = 223 then ['S', 'S']
  else if n = 181 then [Char.ofNat 924]
  else if n = 255 then [Char.ofNat 376]
  else if 224 ≤ n ∧ n ≤ 254 ∧ n ≠ 247 then [Char.ofNat (n - 32)]
  else [c]

/-- Python str.upper over a list of chars. -/
def upperList (s : List Char) : List Char := (s.map upperChar).flatten

/-- Python str.upper as a String operation. -/
def stringUpper (s : String) : String := String.mk (upperList s.data)

/-- Does `p` occur at the very start of `s`? (the anchored core of Python
`in`). -/
def startsWithL : List Char → List Char → Bool
  | [], _ => true
  | _ :: _, [] => false
  | p :: ps, c :: cs => p == c && startsWithL ps cs

/-- Python substring test `pat in s` on char lists. -/
def containsSub (pat : List Char) : List Char → Bool
  | [] => startsWithL pat []
  | c :: cs => startsWithL pat (c :: cs) || containsSub pat cs

/-- The specification-level statement that `pat` occurs inside `s`. -/
def ContainsSubstring (pat s : List Char) : Prop := ∃ l r, s = l ++ pat ++ r

theorem startsWithL_iff (p s : List Char) :
    startsWithL p s = true ↔ ∃ r, s = p ++ r := by
  induction p generalizing s with
  | nil => simp [startsWithL]
  | cons a as ih =>
    cases s with
    | nil =>
      simp [startsWithL]
    | cons c cs =>
      simp only [startsWithL, Bool.and_eq_true, beq_iff_eq, ih, List.cons_append]
      constructor
      · rintro ⟨rfl, r, rfl⟩
        exact ⟨r, rfl⟩
      · rintro ⟨r, h⟩
        cases h
        exact ⟨rfl, r, rfl⟩

theorem containsSub_iff (pat s : List Char) :
    containsSub pat s = true ↔ ContainsSubstring pat s := by
  induction s with
  | nil =>
    simp only [containsSub, startsWithL_iff, ContainsSubstring]
    constructor
    · rintro ⟨r, h⟩
      exact ⟨[], r, by simpa using h⟩
    · rintro ⟨l, r, h⟩
      rw [eq_comm, List.append_assoc, List.append_eq_nil] at h
      exact ⟨r, by simp [h.1, h.2]⟩
  | cons c cs ih =>
    simp only [containsSub, Bool.or_eq_true, startsWithL_iff, ih, ContainsSubstring]
    constructor
    · rintro (⟨r, h⟩ | ⟨l, r, h⟩)
      · exact ⟨[], r, by simpa using h⟩
      · exact ⟨c :: l, r, by simp [h]⟩
    · rintro ⟨l, r, h⟩
      cases l with
      | nil => exact Or.inl ⟨r, by simpa using h⟩
      | cons x xs =>
        simp only [List.cons_append, List.cons.injEq] at h
        exact Or.inr ⟨xs, r, h.2⟩

theorem containsSub_trans {a b s : List Char}
    (hab : containsSub a b = true) (hbs : containsSub b s = true) :
    containsSub a s = true := by
  rw [containsSub_iff] at *
  obtain ⟨l1, r1, h1⟩ := hab
  obtain ⟨l2, r2, h2⟩ := hbs
  refine ⟨l2 ++ l1, r1 ++ r2, ?_⟩
  subst h1
  simp [h2, List.append_assoc]

/-- Python regex `\w` on the Basic Latin and Latin-1 ranges: ASCII
alphanumerics, underscore, and the Latin-1 letters (ª, µ, º and the accented
ranges, excluding × and ÷). -/
def isWordChar (c : Char) : Bool :=
  let n := c.toNat
  decide ((97 ≤ n ∧ n ≤ 122) ∨ (65 ≤ n ∧ n ≤ 90) ∨ (48 ≤ n ∧ n ≤ 57) ∨ n = 95 ∨
    n = 170 ∨ n = 181 ∨ n = 186 ∨ (192 ≤ n ∧ n ≤ 214) ∨ (216 ≤ n ∧ n ≤ 246) ∨
    (248 ≤ n ∧ n ≤ 255))

/-- Does the word `w` match at the front of `s`, with a non-word char (or end
of string) right after it?  Part of `re.search(r"\b" + w + r"\b", s)` for a
word `w` made of word chars. -/
def wordAt (w s : List Char) : Bool :=
  startsWithL w s &&
    (match s.drop w.length with
     | [] => true
     | d :: _ => !isWordChar d)

/-- Scan for a whole-word match of `w`, carrying the previous char to decide
the left word boundary. -/
def searchWordAux (w : List Char) : Option Char → List Char → Bool
  | _, [] => false
  | prev, c :: cs =>
    ((match prev with | none => true | some p => !isWordChar p) && wordAt w (c :: cs))
      || searchWordAux w (some c) cs

/-- Python `re.search(r"\bw\b", s) is not None` for a word `w` whose chars are
all word chars (here only "fake" and "fato"). -/
def searchWord (w s : List Char) : Bool := searchWordAux w none s

/-- The FAKE phrase patterns of `_classificar_checagem` (both copies:
fato-ou-fake-scraper.py lines 155-170 and fato-ou-fake-api.py lines 208-223),
in source order. -/
def padroes_fake : List String :=
  ["é fake", "é falso", "não é verdade", "não é verdadeiro", "falso que",
   "fake news", "boato", "mentira", "enganoso", "não é real", "não aconteceu",
   "não procede", "não existe", "não é fato"]

/-- The FATO phrase patterns of `_classificar_checagem`, in source order. -/
def padroes_fato : List String :=
  ["é fato", "é verdade", "verdadeiro", "aconteceu", "é real", "confirmado",
   "verificado", "comprovado", "procede", "é verdadeiro"]

/-- Embedding of `_classificar_checagem(titulo, resumo)` — identical in
fato-ou-fake-scraper.py (lines 140-205) and fato-ou-fake-api.py (lines
193-258).  The Python for-loops with early `return` are the `List.any`
tests below; `resumo` is accepted and never used, as in the source. -/
def classificar_checagem (titulo resumo : String) : String :=
  let texto_titulo := lowerList titulo.data
  if padroes_fake.any (fun p => containsSub p.data texto_titulo) then "FAKE"
  else if padroes_fato.any (fun p => containsSub p.data texto_titulo) then "FATO"
  else if searchWord "fake".data texto_titulo then "FAKE"
  else if searchWord "fato".data texto_titulo then "FATO"
  else "INDETERMINADO"

/-- The 14 FAKE phrases exactly as the specification lists them (§4.2 step 1),
written out independently of the code-side list `padroes_fake`. -/
def spec_fake_phrases : List String :=
  ["é fake", "é falso", "não é verdade", "não é verdadeiro", "falso que",
   "fake news", "boato", "mentira", "enganoso", "não é real", "não aconteceu",
   "não procede", "não existe", "não é fato"]

/-- The 10 FATO phrases exactly as the specification lists them (§4.2 step 2). -/
def spec_fato_phrases : List String :=
  ["é fato", "é verdade", "verdadeiro", "aconteceu", "é real", "confirmado",
   "verificado", "comprovado", "procede", "é verdadeiro"]

/-- The ordered rule list of specification §4.2: FAKE phrases, then FATO
phrases, then whole-word "fake", then whole-word "fato". -/
def specRules : List ((List Char → Bool) × String) :=
  (spec_fake_phrases.map (fun p => (containsSub p.data, "FAKE"))) ++
  (spec_fato_phrases.map (fun p => (containsSub p.data, "FATO"))) ++
  [(searchWord "fake".data, "FAKE"), (searchWord "fato".data, "FATO")]

/-- First match wins over an ordered rule list; no match gives
INDETERMINADO (§4.2 step 5). -/
def firstMatchRule : List ((List Char → Bool) × String) → List Char → String
  | [], _ => "INDETERMINADO"
  | (p, v) :: rest, t => if p t then v else firstMatchRule rest t

/-- The classifier exactly as specification §4.2 words it: the ordered rules
applied first-match-wins to the lowercased title. -/
def specClassify (titulo : String) : String :=
  firstMatchRule specRules (lowerList titulo.data)

theorem firstMatchRule_append_map (l : List String) (v : String)
    (rest : List ((List Char → Bool) × String)) (t : List Char) :
    firstMatchRule ((l.map (fun p => (containsSub p.data, v))) ++ rest) t
      = if l.any (fun p => containsSub p.data t) then v else firstMatchRule rest t := by
  induction l with
  | nil => simp
  | cons p ps ih =>
    cases h : containsSub p.data t with
    | true => simp [firstMatchRule, h]
    | false => simp [firstMatchRule, h, ih]

/-- C1: for every title the classifier evaluates its rules in strict order
with first match winning, on the lowercased title only: the 14 FAKE phrase
patterns, then the 10 FATO phrase patterns, then whole-word "fake", then
whole-word "fato", and INDETERMINADO when none match.  Stated as: the
embedded code equals the specification-side first-match-wins rule list, whose
phrase lists are written out from the spec and shown equal to the code's. -/
theorem classificar_checagem_follows_spec_rule_order :
    padroes_fake.length = 14 ∧ padroes_fato.length = 10 ∧
    spec_fake_phrases = padroes_fake ∧ spec_fato_phrases = padroes_fato ∧
    ∀ titulo resumo : String, classificar_checagem titulo resumo = specClassify titulo := by
  refine ⟨rfl, rfl, rfl, rfl, ?_⟩
  intro t r
  have hf : spec_fake_phrases = padroes_fake := rfl
  have hft : spec_fato_phrases = padroes_fato := rfl
  unfold specClassify specRules
  rw [List.append_assoc, firstMatchRule_append_map, firstMatchRule_append_map, hf, hft]
  simp only [firstMatchRule]
  rfl

/-- C2: a title whose lowercased text contains "não é fato" is classified
FAKE and never FATO, because the FAKE phrase list is checked first — even
though such a title also contains the FATO patterns "é fato" and "fato". -/
theorem nao_e_fato_always_fake (titulo resumo : String)
    (h : containsSub ("não é fato".data) (lowerList titulo.data) = true) :
    classificar_checagem titulo resumo = "FAKE" ∧
    classificar_checagem titulo resumo ≠ "FATO" ∧
    containsSub ("é fato".data) (lowerList titulo.data) = true ∧
    containsSub ("fato".data) (lowerList titulo.data) = true := by
  have hmem : ("não é fato" : String) ∈ padroes_fake := by decide
  have hany : padroes_fake.any (fun p => containsSub p.data (lowerList titulo.data)) = true :=
    List.any_eq_true.mpr ⟨"não é fato", hmem, h⟩
  have hcls : classificar_checagem titulo resumo = "FAKE" := by
    unfold classificar_checagem
    simp [hany]
  refine ⟨hcls, by simp [hcls], ?_, ?_⟩
  · exact containsSub_trans (by decide) h
  · exact containsSub_trans (by decide) h

/-- Witness for C2 at the concrete title of specification §8. -/
theorem nao_e_fato_always_fake_witness :
    classificar_checagem "Não é fato que cidade decretou estado de emergência" "" = "FAKE" ∧
    classificar_checagem "Não é fato que cidade decretou estado de emergência" "" ≠ "FATO" ∧
    containsSub ("é fato".data)
      (lowerList ("Não é fato que cidade decretou estado de emergência").data) = true ∧
    containsSub ("fato".data)
      (lowerList ("Não é fato que cidade decretou estado de emergência").data) = true :=
  nao_e_fato_always_fake _ _ (by decide)

/-- C3: the classifier result depends on the title alone — the summary
parameter is accepted but never inspected, so any two summaries give the same
verdict for the same title. -/
theorem classificar_checagem_ignores_resumo (titulo s1 s2 : String) :
    classificar_checagem titulo s1 = classificar_checagem titulo s2 := rfl

/-- The keyword list of `_eh_checagem_fato_ou_fake` (fato-ou-fake-scraper.py
line 133, fato-ou-fake-api.py line 186). -/
def keywords : List String :=
  ["fato", "fake", "falso", "verdade", "é falso que", "é verdade que", "checamos"]

/-- Embedding of `_eh_checagem_fato_ou_fake(titulo, link)` — identical in
fato-ou-fake-scraper.py (lines 117-138) and fato-ou-fake-api.py (lines
170-191). -/
def eh_checagem_fato_ou_fake (titulo link : String) : Bool :=
  if containsSub ("fato-ou-fake".data) (lowerList link.data) then true
  else keywords.any (fun k => containsSub (lowerList k.data) (lowerList titulo.data))

/-- C4: the topic filter returns true iff the link contains "fato-ou-fake"
case-insensitively or the title contains (case-insensitively) one of the seven
fixed keywords; in particular it returns false on two empty strings. -/
theorem eh_checagem_fato_ou_fake_iff :
    (∀ titulo link : String,
      eh_checagem_fato_ou_fake titulo link = true ↔
        (ContainsSubstring ("fato-ou-fake".data) (lowerList link.data) ∨
         ∃ k ∈ (["fato", "fake", "falso", "verdade", "é falso que", "é verdade que",
                 "checamos"] : List String),
           ContainsSubstring (lowerList k.data) (lowerList titulo.data))) ∧
    eh_checagem_fato_ou_fake "" "" = false := by
  constructor
  · intro t l
    have hk : keywords =
        (["fato", "fake", "falso", "verdade", "é falso que", "é verdade que",
          "checamos"] : List String) := rfl
    unfold eh_checagem_fato_ou_fake
    cases h : containsSub ("fato-ou-fake".data) (lowerList l.data) with
    | true =>
      simp only [h, if_true, true_iff]
      exact Or.inl ((containsSub_iff _ _).mp h)
    | false =>
      simp only [h, Bool.false_eq_true, if_false, List.any_eq_true, ← hk]
      constructor
      · rintro ⟨k, hkmem, hkc⟩
        exact Or.inr ⟨k, hkmem, (containsSub_iff _ _).mp hkc⟩
      · rintro (hlink | ⟨k, hkmem, hkc⟩)
        · rw [← containsSub_iff] at hlink
          simp [hlink] at h
        · exact ⟨k, hkmem, (containsSub_iff _ _).mpr hkc⟩
  · decide

/-- A cell of a pandas row: the records of this pipeline hold strings and
lists of strings (the `tags` field). -/
inductive Val where
  | s (v : String)
  | l (vs : List String)
deriving DecidableEq

/-- A DataFrame row, modelled as an association list from column name to
cell. -/
abbrev Row : Type := List (String × Val)

/-- A pandas DataFrame: an ordered column list and the rows. -/
structure DataFrame where
  cols : List String
  rows : List Row
deriving DecidableEq

/-- The empty `pd.DataFrame()`. -/
def dfEmpty : DataFrame := ⟨[], []⟩

/-- The value of the `link` column of a row — the natural key used by
`drop_duplicates(subset=["link"])`. -/
def getLink (r : Row) : String :=
  match List.lookup "link" r with
  | some (Val.s v) => v
  | _ => ""

/-- `df[name] = v`: append a constant column (pandas adds it after the
existing columns, same value on every row). -/
def addCol (df : DataFrame) (name : String) (v : Val) : DataFrame :=
  ⟨df.cols ++ [name], df.rows.map (fun r => r ++ [(name, v)])⟩

/-- `df[cols]` on one row: keep the named columns, in the given order. -/
def projectRow (cs : List String) (r : Row) : Row :=
  cs.map (fun c => (c, (List.lookup c r).getD (Val.s "")))

/-- `df[cols]`: project a DataFrame to the named columns. -/
def projectDF (cs : List String) (df : DataFrame) : DataFrame :=
  ⟨cs, df.rows.map (projectRow cs)⟩

/-- `drop_duplicates(subset=["link"])`: keep a row only if its key was not
seen in an earlier row, preserving order (pandas keeps the first
occurrence). -/
def dedupBy (key : Row → String) : List String → List Row → List Row
  | _, [] => []
  | seen, r :: rs =>
    if key r ∈ seen then dedupBy key seen rs
    else r :: dedupBy key (key r :: seen) rs

/-- Embedding of the combination step of `ExtratorCombinado.executar_extracao`
(fato-ou-fake-combinado.py lines 79-108), applied to the list of non-empty
per-method DataFrames: with two or more frames it intersects the column sets,
projects every frame down to the common columns when any frame has extra ones,
concatenates all rows in input order and drops duplicate links keeping the
first occurrence; one frame is returned unchanged; none gives the empty
frame. -/
def combinar (dfs : List DataFrame) : DataFrame :=
  match dfs with
  | [] => dfEmpty
  | [d] => d
  | d1 :: d2 :: rest =>
    let comuns := d1.cols.filter (fun c => d2.cols.contains c)
    let precisaProjetar :=
      comuns.length < d1.cols.length ∨ comuns.length < d2.cols.length
    let dfs2 := if precisaProjetar then (d1 :: d2 :: rest).map (projectDF comuns)
                else d1 :: d2 :: rest
    let todasLinhas := (dfs2.map DataFrame.rows).flatten
    ⟨if precisaProjetar then comuns else d1.cols, dedupBy getLink [] todasLinhas⟩

/-- Embedding of `ExtratorCombinado.executar_extracao` (fato-ou-fake-
combinado.py lines 41-108) as a function of the two extractor results: a
non-empty scraping frame gets the constant column `metodo_extracao =
"scraping"`, a non-empty api/rss frame gets `metodo_extracao = "api/rss"`,
empty frames are skipped, and the surviving frames are combined. -/
def executar_extracao (df_scraping df_api : DataFrame) : DataFrame :=
  let dfs :=
    (if df_scraping.rows.isEmpty then []
     else [addCol df_scraping "metodo_extracao" (Val.s "scraping")]) ++
    (if df_api.rows.isEmpty then []
     else [addCol df_api "metodo_extracao" (Val.s "api/rss")])
  combinar dfs

/-- The two row lists the merger concatenates when both inputs are non-empty:
the per-method frames with their provenance column, projected to the common
columns exactly when the merge itself projects.  `.1` comes from the earlier
(scraping) input, `.2` from the later (api/rss) input. -/
def mergeInputs (d1 d2 : DataFrame) : List Row × List Row :=
  let e1 := addCol d1 "metodo_extracao" (Val.s "scraping")
  let e2 := addCol d2 "metodo_extracao" (Val.s "api/rss")
  let comuns := e1.cols.filter (fun c => e2.cols.contains c)
  let precisaProjetar :=
    comuns.length < e1.cols.length ∨ comuns.length < e2.cols.length
  if precisaProjetar then ((projectDF comuns e1).rows, (projectDF comuns e2).rows)
  else (e1.rows, e2.rows)

/-- The concatenation, in input order, of the two merge inputs. -/
def mergedConcat (d1 d2 : DataFrame) : List Row :=
  (mergeInputs d1 d2).1 ++ (mergeInputs d1 d2).2

theorem dedupBy_sublist (key : Row → String) (seen : List String) (l : List Row) :
    (dedupBy key seen l).Sublist l := by
  induction l generalizing seen with
  | nil => simp [dedupBy]
  | cons r rs ih =>
    unfold dedupBy
    by_cases h : key r ∈ seen
    · simp only [h, if_true]
      exact (ih seen).cons r
    · simp only [h, if_false]
      exact (ih (key r :: seen)).cons₂ r

theorem dedupBy_key_not_seen (key : Row → String) (seen : List String)
    (l : List Row) {r : Row} (hr : r ∈ dedupBy key seen l) : key r ∉ seen := by
  induction l generalizing seen with
  | nil => simp [dedupBy] at hr
  | cons a as ih =>
    unfold dedupBy at hr
    by_cases h : key a ∈ seen
    · simp only [h, if_true] at hr
      exact ih seen hr
    · simp only [h, if_false, List.mem_cons] at hr
      rcases hr with rfl | hr
      · exact h
      · intro hs
        exact ih (key a :: seen) hr (List.mem_cons_of_mem _ hs)

theorem dedupBy_keys_nodup (key : Row → String) (seen : List String) (l : List Row) :
    ((dedupBy key seen l).map key).Nodup := by
  induction l generalizing seen with
  | nil => simp [dedupBy]
  | cons a as ih =>
    unfold dedupBy
    by_cases h : key a ∈ seen
    · simp only [h, if_true]
      exact ih seen
    · simp only [h, if_false, List.map_cons, List.nodup_cons]
      refine ⟨?_, ih (key a :: seen)⟩
      intro hmem
      obtain ⟨r, hr, hkr⟩ := List.mem_map.mp hmem
      exact dedupBy_key_not_seen key _ as hr (by simp [hkr])

theorem dedupBy_covers (key : Row → String) (seen : List String) (l : List Row)
    {r : Row} (hr : r ∈ l) (hs : key r ∉ seen) :
    ∃ q ∈ dedupBy key seen l, key q = key r := by
  induction l generalizing seen with
  | nil => simp at hr
  | cons a as ih =>
    unfold dedupBy
    rcases List.mem_cons.mp hr with rfl | hmem
    · simp only [hs, if_false, List.mem_cons]
      exact ⟨r, Or.inl rfl, rfl⟩
    · by_cases h : key a ∈ seen
      · simp only [h, if_true]
        exact ih seen hmem hs
      · simp only [h, if_false]
        by_cases hk : key r = key a
        · exact ⟨a, List.mem_cons_self _ _, hk.symm⟩
        · obtain ⟨q, hq, hqk⟩ := ih (key a :: seen) hmem (by simp [hk, hs])
          exact ⟨q, List.mem_cons_of_mem _ hq, hqk⟩

theorem dedupBy_first_occ (key : Row → String) (seen : List String) (l : List Row)
    {r : Row} (hr : r ∈ dedupBy key seen l) :
    ∃ p q, l = p ++ r :: q ∧ ∀ x ∈ p, key x ≠ key r := by
  induction l generalizing seen with
  | nil => simp [dedupBy] at hr
  | cons a as ih =>
    unfold dedupBy at hr
    by_cases h : key a ∈ seen
    · simp only [h, if_true] at hr
      obtain ⟨p, q, hpq, hne⟩ := ih seen hr
      refine ⟨a :: p, q, by simp [hpq], ?_⟩
      intro x hx
      rcases List.mem_cons.mp hx with rfl | hxp
      · intro hxy
        exact dedupBy_key_not_seen key seen as hr (hxy ▸ h)
      · exact hne x hxp
    · simp only [h, if_false, List.mem_cons] at hr
      rcases hr with rfl | hr
      · exact ⟨[], as, rfl, by simp⟩
      · obtain ⟨p, q, hpq, hne⟩ := ih (key a :: seen) hr
        refine ⟨a :: p, q, by simp [hpq], ?_⟩
        intro x hx
        rcases List.mem_cons.mp hx with rfl | hxp
        · intro hxy
          exact dedupBy_key_not_seen key _ as hr (by simp [hxy])
        · exact hne x hxp

theorem executar_extracao_rows_eq (d1 d2 : DataFrame)
    (h1 : d1.rows ≠ []) (h2 : d2.rows ≠ []) :
    (executar_extracao d1 d2).rows = dedupBy getLink [] (mergedConcat d1 d2) := by
  obtain ⟨a, as, e1⟩ := List.exists_cons_of_ne_nil h1
  obtain ⟨b, bs, e2⟩ := List.exists_cons_of_ne_nil h2
  unfold executar_extracao combinar mergedConcat mergeInputs
  simp only [e1, e2, List.isEmpty_cons, if_false, Bool.false_eq_true,
    List.singleton_append]
  split
  · simp
  · simp

/-- C6: merging two non-empty datasets concatenates all records preserving
relative order and deduplicates by link keeping the first occurrence: the
output rows are a sublist (order-preserving selection) of the input-order
concatenation, their links are pairwise distinct, every input link survives,
and every output row is the first row of the concatenation bearing its link —
so for duplicate links the record of the earlier dataset is retained with its
field values and later duplicates are discarded. -/
theorem executar_extracao_merge_dedup (d1 d2 : DataFrame)
    (h1 : d1.rows ≠ []) (h2 : d2.rows ≠ []) :
    (executar_extracao d1 d2).rows.Sublist (mergedConcat d1 d2) ∧
    ((executar_extracao d1 d2).rows.map getLink).Nodup ∧
    (∀ r ∈ mergedConcat d1 d2,
      ∃ q ∈ (executar_extracao d1 d2).rows, getLink q = getLink r) ∧
    (∀ q ∈ (executar_extracao d1 d2).rows,
      ∃ p s, mergedConcat d1 d2 = p ++ q :: s ∧ ∀ x ∈ p, getLink x ≠ getLink q) := by
  rw [executar_extracao_rows_eq d1 d2 h1 h2]
  refine ⟨dedupBy_sublist _ _ _, dedupBy_keys_nodup _ _ _, ?_, ?_⟩
  · intro r hr
    exact dedupBy_covers getLink [] (mergedConcat d1 d2) hr (by simp)
  · intro q hq
    exact dedupBy_first_occ getLink [] (mergedConcat d1 d2) hq

/-- A two-row scraping-side frame for the C6 witness; its first row shares the
link "L1" with the api-side frame but has different field values. -/
def wDF1 : DataFrame :=
  ⟨["titulo", "link"],
   [[("titulo", Val.s "t1"), ("link", Val.s "L1")],
    [("titulo", Val.s "t2"), ("link", Val.s "L2")]]⟩

/-- An api-side frame for the C6 witness, with a duplicate of link "L1". -/
def wDF2 : DataFrame :=
  ⟨["titulo", "link"],
   [[("titulo", Val.s "outro"), ("link", Val.s "L1")],
    [("titulo", Val.s "t3"), ("link", Val.s "L3")]]⟩

/-- Witness for C6 at two concrete overlapping datasets. -/
theorem executar_extracao_merge_dedup_witness :
    (executar_extracao wDF1 wDF2).rows.Sublist (mergedConcat wDF1 wDF2) ∧
    ((executar_extracao wDF1 wDF2).rows.map getLink).Nodup ∧
    (∀ r ∈ mergedConcat wDF1 wDF2,
      ∃ q ∈ (executar_extracao wDF1 wDF2).rows, getLink q = getLink r) ∧
    (∀ q ∈ (executar_extracao wDF1 wDF2).rows,
      ∃ p s, mergedConcat wDF1 wDF2 = p ++ q :: s ∧ ∀ x ∈ p, getLink x ≠ getLink q) :=
  executar_extracao_merge_dedup wDF1 wDF2 (by decide) (by decide)

/-- C7: the merger returns an empty Dataset when no input dataset is
non-empty, and returns a single non-empty input unchanged — full column set
kept, no projection, no reordering, no deduplication (duplicate links
included). -/
theorem combinar_zero_or_one_input :
    combinar [] = dfEmpty ∧
    (∀ d : DataFrame, combinar [d] = d) ∧
    executar_extracao dfEmpty dfEmpty = dfEmpty := by
  exact ⟨rfl, fun d => rfl, rfl⟩

/-- A normalized record (the `noticia` dict every adapter builds).
`data_extracao` is the creation timestamp `datetime.now()`, passed in
explicitly; `fonte` is the empty string for the scraper, which emits no such
field, and "API" / "RSS" for the other adapters. -/
structure Noticia where
  titulo : String
  link : String
  data_publicacao : String
  resumo : String
  classificacao : String
  imagem_url : String
  conteudo : String
  tags : List String
  autor : String
  data_extracao : String
  fonte : String := ""
deriving DecidableEq

/-- One item of the hypothetical API payload (`data["items"]` in
`tentar_api`, fato-ou-fake-api.py lines 54-69).  `none` models an absent
dict key; `image_url` stands for `item.get("image", {}).get("url", "")`. -/
structure ApiItem where
  title : Option String
  url : Option String
  published : Option String
  summary : Option String
  classification : Option String
  image_url : Option String
  content : Option String
  author : Option String
  tags : Option (List String)
deriving DecidableEq

/-- Embedding of `_classificar_checagem_api(item)` (fato-ou-fake-api.py lines
260-280): a classification field whose uppercase is FATO or FAKE is returned
(uppercased) directly; otherwise the title/summary classifier runs. -/
def classificar_checagem_api (item : ApiItem) : String :=
  match item.classification with
  | some c =>
    if stringUpper c ∈ (["FATO", "FAKE"] : List String) then stringUpper c
    else classificar_checagem (item.title.getD "") (item.summary.getD "")
  | none => classificar_checagem (item.title.getD "") (item.summary.getD "")

/-- The record `tentar_api` builds for one payload item (fato-ou-fake-api.py
lines 56-68). -/
def noticiaDeApiItem (now : String) (item : ApiItem) : Noticia :=
  { titulo := item.title.getD "", link := item.url.getD "",
    data_publicacao := item.published.getD "", resumo := item.summary.getD "",
    classificacao := classificar_checagem_api item,
    imagem_url := item.image_url.getD "", conteudo := item.content.getD "",
    tags := item.tags.getD [], autor := item.author.getD "",
    data_extracao := now, fonte := "API" }

/-- Embedding of the per-item loop of `tentar_api` (fato-ou-fake-api.py lines
54-69) on a successfully fetched payload: every item of `data["items"]`
becomes a record — the loop applies no topic filter. -/
def tentar_api_process (now : String) (items : List ApiItem) : List Noticia :=
  items.map (noticiaDeApiItem now)

/-- One feed entry as `tentar_rss` reads it (fato-ou-fake-api.py lines
100-125); `none` models a missing attribute (`hasattr` false). -/
structure RssEntry where
  title : String
  link : String
  published : Option String
  summary : Option String
  tags : Option (List String)
  author : Option String
deriving DecidableEq

/-- The record `tentar_rss` builds for one accepted entry.  `conteudoDe`
stands for the secondary fetch `_extrair_conteudo_da_noticia(entry.link)` and
`imagemDe` for `_extrair_imagem_do_feed(entry)`, both external-shape helpers
passed in by result. -/
def noticiaDeRssEntry (conteudoDe : String → String) (imagemDe : RssEntry → String)
    (now : String) (e : RssEntry) : Noticia :=
  { titulo := e.title, link := e.link, data_publicacao := e.published.getD "",
    resumo := e.summary.getD "",
    classificacao := classificar_checagem e.title (e.summary.getD ""),
    imagem_url := imagemDe e, conteudo := conteudoDe e.link,
    tags := e.tags.getD [], autor := e.author.getD "",
    data_extracao := now, fonte := "RSS" }

/-- Embedding of the per-entry loop of `tentar_rss` (fato-ou-fake-api.py
lines 100-125): an entry failing `_eh_checagem_fato_ou_fake` is skipped with
`continue`; the rest become records. -/
def tentar_rss_process (conteudoDe : String → String) (imagemDe : RssEntry → String)
    (now : String) (entries : List RssEntry) : List Noticia :=
  entries.filterMap fun e =>
    if eh_checagem_fato_ou_fake e.title e.link then
      some (noticiaDeRssEntry conteudoDe imagemDe now e)
    else none

/-- One `.feed-post-body` element as the scraper reads it
(fato-ou-fake-scraper.py lines 64-109): `titulo_link` is the text and href of
the `.feed-post-link` element (absent when the selector finds nothing, which
makes the loop `continue`), the other fields are the optional date, summary
and image selectors. -/
structure Artigo where
  titulo_link : Option (String × String)
  data_pub : Option String
  resumo : Option String
  img_src : Option String
deriving DecidableEq

/-- The result of `_extrair_detalhes_noticia(url)` (fato-ou-fake-scraper.py
lines 207-245); on any failure the defaults below are returned. -/
structure Detalhes where
  conteudo : String := ""
  tags : List String := []
  autor : String := ""
deriving DecidableEq

/-- Embedding of `extrair_noticias_da_pagina` (fato-ou-fake-scraper.py lines
48-115): skip articles with no title element, apply the topic filter, and
build the record (the detail fetch `_extrair_detalhes_noticia` is passed in
by result as `detalhesDe`). -/
def extrair_noticias_da_pagina (detalhesDe : String → Detalhes) (now : String)
    (artigos : List Artigo) : List Noticia :=
  artigos.filterMap fun a =>
    match a.titulo_link with
    | none => none
    | some (titulo, link) =>
      if eh_checagem_fato_ou_fake titulo link then
        some { titulo := titulo, link := link,
               data_publicacao := a.data_pub.getD "Data não encontrada",
               resumo := a.resumo.getD "",
               classificacao := classificar_checagem titulo (a.resumo.getD ""),
               imagem_url := a.img_src.getD "",
               conteudo := (detalhesDe link).conteudo,
               tags := (detalhesDe link).tags, autor := (detalhesDe link).autor,
               data_extracao := now }
      else none

/-- The page loop of `percorrer_paginas` for pages 2..num_pages
(fato-ou-fake-scraper.py lines 266-278): a page that fetches parses and
extends the result; a failed fetch (`extrair_pagina` returned None) hits
`break`, ending the loop.  `fuel` is the number of page indices left. -/
def percorrerAux (fetch : Nat → Option (List Artigo)) (detalhesDe : String → Detalhes)
    (now : String) : Nat → Nat → List Noticia
  | _, 0 => []
  | i, fuel + 1 =>
    match fetch i with
    | some artigos =>
      extrair_noticias_da_pagina detalhesDe now artigos ++
        percorrerAux fetch detalhesDe now (i + 1) fuel
    | none => []

/-- Embedding of `percorrer_paginas` (fato-ou-fake-scraper.py lines 247-280):
page 1 contributes its extraction when it fetches (and nothing when it does
not — no break there), then pages 2..num_pages run under the break-on-failure
loop. -/
def percorrer_paginas (num_pages : Nat) (fetch : Nat → Option (List Artigo))
    (detalhesDe : String → Detalhes) (now : String) : List Noticia :=
  (match fetch 1 with
   | some artigos => extrair_noticias_da_pagina detalhesDe now artigos
   | none => []) ++ percorrerAux fetch detalhesDe now 2 (num_pages - 1)

/-- The scraper's column order (insertion order of the `noticia` dict,
fato-ou-fake-scraper.py lines 96-107; no `fonte` column). -/
def scraperCols : List String :=
  ["titulo", "link", "data_publicacao", "resumo", "classificacao", "imagem_url",
   "conteudo", "tags", "autor", "data_extracao"]

/-- A scraper record as a DataFrame row. -/
def noticiaRowScraper (n : Noticia) : Row :=
  [("titulo", Val.s n.titulo), ("link", Val.s n.link),
   ("data_publicacao", Val.s n.data_publicacao), ("resumo", Val.s n.resumo),
   ("classificacao", Val.s n.classificacao), ("imagem_url", Val.s n.imagem_url),
   ("conteudo", Val.s n.conteudo), ("tags", Val.l n.tags),
   ("autor", Val.s n.autor), ("data_extracao", Val.s n.data_extracao)]

/-- `pd.DataFrame(noticias)` for the scraper: empty list gives the empty
frame, else the scraper columns with one row per record. -/
def noticiasToDF (ns : List Noticia) : DataFrame :=
  match ns with
  | [] => dfEmpty
  | _ => ⟨scraperCols, ns.map noticiaRowScraper⟩

/-- An API payload item whose title and link both fail the topic filter. -/
def offTopicItem : ApiItem :=
  { title := some "Reunião discute pauta econômica",
    url := some "https://example.com/reuniao", published := none, summary := none,
    classification := none, image_url := none, content := none, author := none,
    tags := none }

/-- Counterexample to C5: the API adapter emits a record for a payload item
that fails `_eh_checagem_fato_ou_fake` — its loop never calls the topic
filter, so the claimed invariant is false for the API-based adapter. -/
theorem tentar_api_emits_unfiltered_record :
    (tentar_api_process "2025-01-01 00:00:00" [offTopicItem]).length = 1 ∧
    eh_checagem_fato_ou_fake "Reunião discute pauta econômica"
      "https://example.com/reuniao" = false ∧
    (tentar_api_process "2025-01-01 00:00:00" [offTopicItem]).all
      (fun n => !eh_checagem_fato_ou_fake n.titulo n.link) = true := by
  refine ⟨rfl, by decide, by decide⟩

/-- C5 as amended: the scrape-based and RSS-based adapters accept a record
only if the topic filter holds for its title and link, while the API-based
adapter emits one record per payload item without applying the filter. -/
theorem adapters_filter_gate :
    (∀ (detalhesDe : String → Detalhes) (now : String) (artigos : List Artigo),
      ∀ n ∈ extrair_noticias_da_pagina detalhesDe now artigos,
        eh_checagem_fato_ou_fake n.titulo n.link = true) ∧
    (∀ (conteudoDe : String → String) (imagemDe : RssEntry → String)
       (now : String) (entries : List RssEntry),
      ∀ n ∈ tentar_rss_process conteudoDe imagemDe now entries,
        eh_checagem_fato_ou_fake n.titulo n.link = true) ∧
    (∀ (now : String) (items : List ApiItem),
      (tentar_api_process now items).length = items.length) := by
  refine ⟨?_, ?_, ?_⟩
  · intro dts now artigos n hn
    obtain ⟨a, _, ha⟩ := List.mem_filterMap.mp hn
    cases htl : a.titulo_link with
    | none => rw [htl] at ha; exact absurd ha (by simp)
    | some tl =>
      obtain ⟨t, lk⟩ := tl
      rw [htl] at ha
      by_cases h : eh_checagem_fato_ou_fake t lk
      · simp only [h, if_true, Option.some.injEq] at ha
        rw [← ha]
        exact h
      · simp [h] at ha
  · intro cd im now entries n hn
    obtain ⟨e, _, he⟩ := List.mem_filterMap.mp hn
    by_cases h : eh_checagem_fato_ou_fake e.title e.link
    · simp only [h, if_true, Option.some.injEq] at he
      rw [← he]
      exact h
    · simp [h] at he
  · intro now items
    exact List.length_map items (noticiaDeApiItem now)

/-- A first-page article passing the topic filter. -/
def artigoA : Artigo :=
  { titulo_link := some ("É fake que vacina altera DNA",
      "https://g1.globo.com/fato-ou-fake/a.html"),
    data_pub := none, resumo := none, img_src := none }

/-- A third-page article passing the topic filter. -/
def artigoB : Artigo :=
  { titulo_link := some ("É fato que lei foi sancionada",
      "https://g1.globo.com/fato-ou-fake/b.html"),
    data_pub := none, resumo := none, img_src := none }

/-- A fetch oracle: page 1 yields `artigoA`, page 2 fails, page 3 would yield
`artigoB`. -/
def fetchEx : Nat → Option (List Artigo) :=
  fun i => if i = 1 then some [artigoA] else if i = 3 then some [artigoB] else none

/-- The detail fetch used by the C9 scenario: always the default details. -/
def detalhesEx : String → Detalhes := fun _ => {}

/-- Counterexample to C9: with page 2 failing and page 3 fetchable, the
scraper stops at the `break` — page 3's extractable record is not collected,
so the pipeline does not proceed with the remaining pages. -/
theorem percorrer_paginas_break_cex :
    (percorrer_paginas 3 fetchEx detalhesEx "t0").length = 1 ∧
    (extrair_noticias_da_pagina detalhesEx "t0" [artigoB]).length = 1 ∧
    percorrer_paginas 3 fetchEx detalhesEx "t0" ≠
      extrair_noticias_da_pagina detalhesEx "t0" [artigoA] ++
        extrair_noticias_da_pagina detalhesEx "t0" [artigoB] := by
  refine ⟨by decide, by decide, by decide⟩

/-- C9 as amended: a failed fetch of page 1 contributes an empty result and
the loop over pages 2..n still runs; a failed fetch of a page i ≥ 2 ends the
page loop (the failing page and all later pages contribute nothing); and a
scraper that yields nothing leaves the other adapter's dataset to flow
through the merger untouched. -/
theorem fetch_failure_local_recovery :
    (∀ (n : Nat) (fetch : Nat → Option (List Artigo)) (dts : String → Detalhes)
       (now : String), fetch 1 = none →
      percorrer_paginas n fetch dts now = percorrerAux fetch dts now 2 (n - 1)) ∧
    (∀ (fetch : Nat → Option (List Artigo)) (dts : String → Detalhes) (now : String)
       (i fuel : Nat), fetch i = none →
      percorrerAux fetch dts now i (fuel + 1) = []) ∧
    (∀ (n : Nat) (fetch : Nat → Option (List Artigo)) (dts : String → Detalhes)
       (now : String) (d2 : DataFrame), (∀ i, fetch i = none) → d2.rows ≠ [] →
      executar_extracao (noticiasToDF (percorrer_paginas n fetch dts now)) d2 =
        addCol d2 "metodo_extracao" (Val.s "api/rss")) := by
  refine ⟨?_, ?_, ?_⟩
  · intro n fetch dts now h
    unfold percorrer_paginas
    rw [h]
    simp
  · intro fetch dts now i fuel h
    unfold percorrerAux
    rw [h]
  · intro n fetch dts now d2 hall h2
    have hper : percorrer_paginas n fetch dts now = [] := by
      unfold percorrer_paginas
      rw [hall 1]
      cases hn : n - 1 with
      | zero => simp [percorrerAux]
      | succ f =>
        unfold percorrerAux
        rw [hall 2]
        simp
    obtain ⟨b, bs, e2⟩ := List.exists_cons_of_ne_nil h2
    rw [hper]
    show executar_extracao dfEmpty d2 = addCol d2 "metodo_extracao" (Val.s "api/rss")
    unfold executar_extracao
    simp only [dfEmpty, List.isEmpty_nil, if_true, e2, List.isEmpty_cons,
      Bool.false_eq_true, if_false, List.nil_append]
    rfl

/-- An API item carrying a lowercase classification field. -/
def lowercaseFieldItem : ApiItem :=
  { title := some "noticia qualquer", url := some "u", published := none,
    summary := none, classification := some "fato", image_url := none,
    content := none, author := none, tags := none }

/-- Counterexample to C10: for a payload item whose classification field is
"fato" (uppercased value FATO), the emitted classification is "FATO", which
is not the field's value — the code returns the uppercased value, not the
value itself. -/
theorem classificar_checagem_api_upper_cex :
    classificar_checagem_api lowercaseFieldItem = "FATO" ∧
    lowercaseFieldItem.classification = some "fato" ∧
    ("FATO" : String) ≠ "fato" ∧
    (noticiaDeApiItem "t0" lowercaseFieldItem).classificacao = "FATO" := by
  refine ⟨by decide, rfl, by decide, by decide⟩

/-- C10 as amended: when the classification field is present and its
uppercase is FATO or FAKE, the emitted record's classification is that
uppercased value, whatever the item's title; the title/summary classifier is
used exactly when the field is absent or uppercases to anything else. -/
theorem classificar_checagem_api_field_priority :
    (∀ (item : ApiItem) (c : String), item.classification = some c →
      stringUpper c ∈ (["FATO", "FAKE"] : List String) →
      classificar_checagem_api item = stringUpper c) ∧
    (∀ (item : ApiItem) (now : String) (c : String), item.classification = some c →
      stringUpper c ∈ (["FATO", "FAKE"] : List String) →
      (noticiaDeApiItem now item).classificacao = stringUpper c) ∧
    (∀ item : ApiItem, item.classification = none →
      classificar_checagem_api item =
        classificar_checagem (item.title.getD "") (item.summary.getD "")) ∧
    (∀ (item : ApiItem) (c : String), item.classification = some c →
      stringUpper c ∉ (["FATO", "FAKE"] : List String) →
      classificar_checagem_api item =
        classificar_checagem (item.title.getD "") (item.summary.getD "")) := by
  have hbase : ∀ (item : ApiItem) (c : String), item.classification = some c →
      stringUpper c ∈ (["FATO", "FAKE"] : List String) →
      classificar_checagem_api item = stringUpper c := by
    intro item c hc hin
    unfold classificar_checagem_api
    rw [hc]
    simp [hin]
  refine ⟨hbase, ?_, ?_, ?_⟩
  · intro item now c hc hin
    show classificar_checagem_api item = stringUpper c
    exact hbase item c hc hin
  · intro item hc
    unfold classificar_checagem_api
    rw [hc]
  · intro item c hc hnot
    unfold classificar_checagem_api
    rw [hc]
    simp [hnot]

/-- The argparse choices for `--metodo` (fato-ou-fake-combinado.py line 153),
also the valid methods of `ExtratorCombinado.__init__` (line 31). -/
def metodos_validos : List String := ["scraping", "api", "todos"]

/-- The argparse choices for `--formato` (fato-ou-fake-combinado.py line
160). -/
def formatos_validos : List String := ["csv", "json", "ambos"]

/-- The state `ExtratorCombinado.__init__` builds: the lowered method and
which extractors were constructed (no fetch happens at construction). -/
structure ExtratorConfig where
  num_paginas : Nat
  metodo : String
  tem_scraper : Bool
  tem_api : Bool
deriving DecidableEq

/-- Embedding of `ExtratorCombinado.__init__` (fato-ou-fake-combinado.py
lines 17-39): lower the method, raise ValueError on an invalid one before
constructing any extractor, else record which extractors exist.  The error
text is abbreviated. -/
def ExtratorCombinado_init (num_paginas : Nat) (metodo : String) :
    Except String ExtratorConfig :=
  let m := stringLower metodo
  if m ∈ metodos_validos then
    Except.ok ⟨num_paginas, m, decide (m = "scraping" ∨ m = "todos"),
      decide (m = "api" ∨ m = "todos")⟩
  else Except.error "Metodo invalido. Use scraping, api ou todos."

/-- Embedding of `ExtratorCombinado.salvar_dataset` (fato-ou-fake-combinado.py
lines 110-142): an empty frame saves nothing, csv/json produce a timestamped
path, any other format raises ValueError (message abbreviated). -/
def salvar_dataset_combinado (df : DataFrame) (formato timestamp : String) :
    Except String (Option String) :=
  if df.rows.isEmpty then Except.ok none
  else if stringLower formato = "csv" then
    Except.ok (some ("datasets/fato_ou_fake_combinado_" ++ timestamp ++ ".csv"))
  else if stringLower formato = "json" then
    Except.ok (some ("datasets/fato_ou_fake_combinado_" ++ timestamp ++ ".json"))
  else Except.error ("Formato " ++ formato ++ " nao suportado. Use csv ou json.")

/-- Outcome of one CLI run of fato-ou-fake-combinado.py. -/
inductive RunOutcome where
  | erroArgumentos
  | erroConfig (msg : String)
  | concluido (arquivos : List String)
deriving DecidableEq

/-- Embedding of `main()` (fato-ou-fake-combinado.py lines 145-199) with the
network abstracted as the two adapter result frames: argparse rejects a
method or format outside its choices before anything else runs; then the
extractor is configured, extraction runs, and the dataset is saved in the
requested formats when non-empty.  The second component counts the
extraction (network) phases executed: 0 on every error path. -/
def mainFlow (metodo formato : String) (paginas : Nat)
    (df_scraping df_api : DataFrame) (timestamp : String) : RunOutcome × Nat :=
  if metodo ∈ metodos_validos ∧ formato ∈ formatos_validos then
    match ExtratorCombinado_init paginas metodo with
    | Except.error msg => (RunOutcome.erroConfig msg, 0)
    | Except.ok _cfg =>
      let df := executar_extracao df_scraping df_api
      if df.rows.isEmpty then (RunOutcome.concluido [], 1)
      else
        let csvs := if formato = "csv" ∨ formato = "ambos" then
            (match salvar_dataset_combinado df "csv" timestamp with
             | Except.ok (some f) => [f]
             | _ => []) else []
        let jsons := if formato = "json" ∨ formato = "ambos" then
            (match salvar_dataset_combinado df "json" timestamp with
             | Except.ok (some f) => [f]
             | _ => []) else []
        (RunOutcome.concluido (csvs ++ jsons), 1)
  else (RunOutcome.erroArgumentos, 0)

/-- C8: an invalid source method or output format is a fatal configuration
error raised before any network activity: the constructor rejects a method
outside {scraping, api, todos} before any fetch, the CLI rejects an invalid
format (or method) at argument-parsing time with zero extraction phases run,
and every valid method does configure successfully. -/
theorem configuration_errors_precede_extraction :
    (∀ (np : Nat) (metodo : String), stringLower metodo ∉ metodos_validos →
      ExtratorCombinado_init np metodo =
        Except.error "Metodo invalido. Use scraping, api ou todos.") ∧
    (∀ (metodo formato : String) (p : Nat) (d1 d2 : DataFrame) (ts : String),
      metodo ∉ metodos_validos →
      mainFlow metodo formato p d1 d2 ts = (RunOutcome.erroArgumentos, 0)) ∧
    (∀ (metodo formato : String) (p : Nat) (d1 d2 : DataFrame) (ts : String),
      formato ∉ formatos_validos →
      mainFlow metodo formato p d1 d2 ts = (RunOutcome.erroArgumentos, 0)) ∧
    (∀ (np : Nat) (m : String), m ∈ metodos_validos →
      ∃ cfg, ExtratorCombinado_init np m = Except.ok cfg) := by
  refine ⟨?_, ?_, ?_, ?_⟩
  · intro np metodo h
    unfold ExtratorCombinado_init
    rw [if_neg h]
  · intro metodo formato p d1 d2 ts h
    unfold mainFlow
    rw [if_neg (fun hc => h hc.1)]
  · intro metodo formato p d1 d2 ts h
    unfold mainFlow
    rw [if_neg (fun hc => h hc.2)]
  · intro np m hm
    have hm3 : m = "scraping" ∨ m = "api" ∨ m = "todos" := by
      simpa [metodos_validos] using hm
    rcases hm3 with rfl | rfl | rfl
    · exact ⟨_, rfl⟩
    · exact ⟨_, rfl⟩
    · exact ⟨_, rfl⟩
